import Mathlib

/-!
Shallow embedding of the destack Next.js app-router route handler
(`dev/nextjs-app-router`, route `app/api/builder/handle/route.ts`, whose body
is the second document of `app/page.tsx` in this excerpt).

The route handler code (`GET`, `POST`, `handleEditorNew`, `handleDataNew`,
`handleAssetNew`, `handleThemeNew`) is embedded faithfully.  The library
functions it imports from `destack/build/server` (`loadData`, `updateData`,
`uploadFiles`, `getPackagePath`) are outside this excerpt and are modelled as
an abstract environment `Env`; the Node `fs` module is modelled as finite maps
from paths to file bytes and directory listings, and Node's `path.join` is
embedded as `joinPath` with the standard `..`/`.` normalisation semantics.
-/

namespace Destack

/-- Minimal JSON values, covering everything the route handlers produce. -/
inductive Json where
  | str (s : String)
  | arr (xs : List Json)
  | obj (fields : List (String × Json))
deriving Repr

mutual

/-- `JSON.stringify` on `Json` values (no escapes needed for the strings the
handlers emit). -/
def Json.serialize : Json → String
  | .str s => "\"" ++ s ++ "\""
  | .arr xs => "[" ++ serializeArr xs ++ "]"
  | .obj fs => "\x7b" ++ serializeObj fs ++ "\x7d"

def serializeArr : List Json → String
  | [] => ""
  | [x] => Json.serialize x
  | x :: xs => Json.serialize x ++ "," ++ serializeArr xs

def serializeObj : List (String × Json) → String
  | [] => ""
  | [(k, v)] => "\"" ++ k ++ "\":" ++ Json.serialize v
  | (k, v) :: xs => "\"" ++ k ++ "\":" ++ Json.serialize v ++ "," ++ serializeObj xs

end

/-- UTF-8 serialisation of an (ASCII) string, as a byte list. -/
def strBytes (s : String) : List Nat :=
  s.data.map Char.toNat

/-- Reading a file's bytes back as a UTF-8 (ASCII) string, as
`fs.promises.readFile(p, 'utf-8')` does. -/
def bytesToStr (bs : List Nat) : String :=
  String.mk (bs.map Char.ofNat)

/-- A response body: raw bytes (asset data) or a JSON value. -/
inductive Body where
  | bytes (data : List Nat)
  | json (j : Json)
deriving Repr

/-- The observable parts of a `NextResponse`: status, the explicitly set
`Content-Type` and `Content-Length` headers, and the body. -/
structure Resp where
  status : Nat
  contentType : Option String
  contentLength : Option String
  body : Body
deriving Repr

/-- `NextResponse.json(j)`: status 200, JSON content type. -/
def Resp.json200 (j : Json) : Resp :=
  { status := 200, contentType := some "application/json", contentLength := none,
    body := Body.json j }

/-- `NextResponse.json(j, { status })`. -/
def Resp.jsonWith (status : Nat) (j : Json) : Resp :=
  { status := status, contentType := some "application/json", contentLength := none,
    body := Body.json j }

/-- The generic error object every catch block produces. -/
def internalErrorJson : Json :=
  Json.obj [("error", Json.str "Internal Server Error")]

/-- The generic catch-block response: 500 with the generic error object. -/
def internalError500 : Resp :=
  Resp.jsonWith 500 internalErrorJson

/-- `result.arrayBuffer()`: the raw bytes of the body; a JSON body is
serialised to its UTF-8 bytes. -/
def Resp.arrayBuffer (r : Resp) : List Nat :=
  match r.body with
  | Body.bytes bs => bs
  | Body.json j => strBytes (Json.serialize j)

/-- `result.json()`: parse the body as JSON.  A byte body is not valid JSON
in any flow that calls this; parsing it rejects (caught by the outer catch). -/
def Resp.bodyJson (r : Resp) : Except Unit Json :=
  match r.body with
  | Body.json j => Except.ok j
  | Body.bytes _ => Except.error ()

/-- An incoming request: HTTP method, the query parameters that
`getQueryParams` extracts from the URL (`Object.fromEntries` of the search
params), the `content-type` header, and the raw body stream. -/
structure Request where
  method : String
  query : List (String × String)
  contentType : Option String
  body : Option (List Nat)

/-- `queryParams.k`: property access on the object built by `getQueryParams`;
`none` models JavaScript `undefined`. -/
def getParam (req : Request) (k : String) : Option String :=
  (req.query.find? (fun p => p.1 == k)).map (fun p => p.2)

/-- `queryParams.ext || 'html'`: JavaScript `||` takes the default on the
falsy values `undefined` and `""`. -/
def orDefault (o : Option String) (d : String) : String :=
  match o with
  | none => d
  | some s => if s = "" then d else s

/-- Whether the first list is an initial run of the second. -/
def isPre : List Char → List Char → Bool
  | [], _ => true
  | _, [] => false
  | a :: as, b :: bs => a = b && isPre as bs

/-- JavaScript `s.startsWith(pre)`, character-level (so it reduces in the
kernel). -/
def strStartsWith (s pre : String) : Bool :=
  isPre pre.data s.data

/-- Split a path string on `/` (character-level, so it reduces in the
kernel). -/
def splitChars : List Char → List Char → List String
  | [], acc => [String.mk acc.reverse]
  | c :: cs, acc =>
    if c = '/' then String.mk acc.reverse :: splitChars cs []
    else splitChars cs (c :: acc)

def splitSegs (s : String) : List String :=
  splitChars s.data []

/-- Stack-based `.`/`..` normalisation used by Node's `path.join`: `..` pops
a preceding segment; on an absolute path excess `..` at the root is dropped,
on a relative path it is kept. -/
def normSegs (abs : Bool) (stack : List String) : List String → List String
  | [] => stack.reverse
  | seg :: rest =>
    if seg = "" || seg = "." then normSegs abs stack rest
    else if seg = ".." then
      match stack with
      | [] => if abs then normSegs abs [] rest else normSegs abs [".."] rest
      | top :: tl =>
        if top = ".." then normSegs abs (".." :: stack) rest
        else normSegs abs tl rest
    else normSegs abs (seg :: stack) rest

def joinSegs : List String → String
  | [] => ""
  | [s] => s
  | s :: rest => s ++ "/" ++ joinSegs rest

/-- Whether the first character is `/` (absolute path). -/
def isAbs (s : String) : Bool :=
  match s.data with
  | c :: _ => c = '/'
  | [] => false

/-- Node's `path.join(a, b)`: concatenate and normalise.  In particular
`joinPath "/pkg" "../secret.png" = "/secret.png"` — `..` segments escape the
first component. -/
def joinPath (a b : String) : String :=
  let abs := isAbs a
  let segs := splitSegs a ++ splitSegs b
  let s := joinSegs (normSegs abs [] segs)
  if abs then "/" ++ s else if s = "" then "." else s

/-- Whether the first segment list is an initial run of the second (used to
state when a resolved path is still under a directory). -/
def underDir : List String → List String → Bool
  | [], _ => true
  | _, [] => false
  | a :: as, b :: bs => a = b && underDir as bs

/-- Whether the path `full` lies outside the directory `root`, comparing
normalised segment lists. -/
def outsideRoot (root full : String) : Bool :=
  !(underDir (normSegs (isAbs root) [] (splitSegs root))
             (normSegs (isAbs full) [] (splitSegs full)))

/-- The collaborators imported from `destack/build/server`, which are outside
this excerpt, plus the filesystem reached through the exported `fs` module:
`pkgPath` is `getPackagePath()`, `files` maps a path to its byte contents
(`fs.promises.readFile`), `dirs` maps a directory to its entry names
(`fs.promises.readdir`). -/
structure Env where
  pkgPath : String
  loadData : Option String → String → Except Unit Json
  updateData : Option String → String → Option (List Nat) → Except Unit Unit
  uploadFiles : Request → Except Unit (List String)
  files : List (String × List Nat)
  dirs : List (String × List String)

/-- A record of which library operation a data request invoked, with the
arguments it was given. -/
inductive Call where
  | loadData (path : Option String) (ext : String)
  | updateData (path : Option String) (ext : String) (body : Option (List Nat))
  | uploadFiles

/-- `contentType?.startsWith('multipart/form-data')` coerced to its branch
value: an absent header gives `undefined`, which the `!isMultiPart` test
treats as false. -/
def isMultipartReq (req : Request) : Bool :=
  match req.contentType with
  | some ct => strStartsWith ct "multipart/form-data"
  | none => false

/-- `handleDataNew`: load on GET, update or upload on POST, 405 otherwise.
Returns the response together with the library calls made. -/
def handleDataNew (e : Env) (req : Request) : Resp × List Call :=
  let pathQ := getParam req "path"
  if req.method = "GET" then
    let ext := orDefault (getParam req "ext") "html"
    match e.loadData pathQ ext with
    | Except.ok data => (Resp.json200 data, [Call.loadData pathQ ext])
    | Except.error _ => (internalError500, [Call.loadData pathQ ext])
  else if req.method = "POST" then
    if !isMultipartReq req then
      let ext := orDefault (getParam req "ext") "html"
      match e.updateData pathQ ext req.body with
      | Except.ok _ => (Resp.json200 (Json.obj []), [Call.updateData pathQ ext req.body])
      | Except.error _ => (internalError500, [Call.updateData pathQ ext req.body])
    else
      match e.uploadFiles req with
      | Except.ok urls => (Resp.json200 (Json.arr (urls.map Json.str)), [Call.uploadFiles])
      | Except.error _ => (internalError500, [Call.uploadFiles])
  else
    (Resp.jsonWith 405 (Json.obj [("error", Json.str "Method Not Allowed")]), [])

/-- `handleAssetNew`: on GET, `path.join(getPackagePath(), queryParams.path)`
then `readFile`; a missing `path` parameter makes `path.join` throw and a
missing file makes `readFile` reject, both caught by the generic catch.  On
any other method, 405. -/
def handleAssetNew (e : Env) (req : Request) : Resp :=
  if req.method = "GET" then
    match getParam req "path" with
    | none => internalError500
    | some p =>
      let assetPath := joinPath e.pkgPath p
      match e.files.lookup assetPath with
      | some data =>
        { status := 200, contentType := some "image/png",
          contentLength := some (toString data.length), body := Body.bytes data }
      | none => internalError500
  else
    Resp.jsonWith 405 (Json.obj [("error", Json.str "Method Not Allowed")])

/-- Read each component folder's `index.html` under the theme folder, as the
`componentsP` mapping does; `none` when any read rejects (`Promise.all`). -/
def readComponents (e : Env) (folderPath : String) : List String → Option (List Json)
  | [] => some []
  | c :: rest =>
    match e.files.lookup (joinPath (joinPath folderPath c) "index.html") with
    | none => none
    | some bs =>
      match readComponents e folderPath rest with
      | none => none
      | some rs =>
        some (Json.obj [("source", Json.str (bytesToStr bs)), ("folder", Json.str c)] :: rs)

/-- `handleThemeNew`: on GET, `readdir` the theme folder, filter out
`index.ts` and hidden entries, read each remaining folder's `index.html`;
any failure (missing `name`, missing directory, missing component file) falls
into the generic catch.  On any other method, 405 `Not allowed`. -/
def handleThemeNew (e : Env) (req : Request) : Resp :=
  if req.method = "GET" then
    match getParam req "name" with
    | none => internalError500
    | some themeName =>
      let folderPath := joinPath (joinPath e.pkgPath "themes") themeName
      match e.dirs.lookup folderPath with
      | none => internalError500
      | some entries =>
        let componentNames :=
          entries.filter (fun c => (c != "index.ts") && !(strStartsWith c "."))
        match readComponents e folderPath componentNames with
        | some comps => Resp.json200 (Json.arr comps)
        | none => internalError500
  else
    Resp.jsonWith 405 (Json.obj [("error", Json.str "Not allowed")])

/-- `handleEditorNew`: dispatch on `query.type`; anything other than `data`,
`asset`, `theme` gets 400 `Invalid Type`. -/
def handleEditorNew (e : Env) (req : Request) : Resp × List Call :=
  if getParam req "type" = some "data" then
    handleDataNew e req
  else if getParam req "type" = some "asset" then
    (handleAssetNew e req, [])
  else if getParam req "type" = some "theme" then
    (handleThemeNew e req, [])
  else
    (Resp.jsonWith 400 (Json.obj [("error", Json.str "Invalid Type")]), [])

/-- The route's `GET` export: delegate to `handleEditorNew`, then re-wrap —
`theme` responses are re-emitted as `NextResponse.json` (status 200), `asset`
responses are re-emitted as their `arrayBuffer` bytes with status 200 and
`Content-Type: image/png`, and everything else is re-emitted with status 200
and JSON content type.  A parse failure falls into the catch (500). -/
def GET (e : Env) (req : Request) : Resp :=
  let result := (handleEditorNew e req).1
  if getParam req "type" = some "theme" then
    match result.bodyJson with
    | Except.ok j => Resp.json200 j
    | Except.error _ =>
      { status := 500, contentType := some "application/json", contentLength := none,
        body := Body.json internalErrorJson }
  else if getParam req "type" = some "asset" then
    { status := 200, contentType := some "image/png", contentLength := none,
      body := Body.bytes result.arrayBuffer }
  else
    match result.bodyJson with
    | Except.ok j =>
      { status := 200, contentType := some "application/json", contentLength := none,
        body := Body.json j }
    | Except.error _ =>
      { status := 500, contentType := some "application/json", contentLength := none,
        body := Body.json internalErrorJson }

/-- The route's `POST` export: delegate to `handleEditorNew`; `theme`
responses are re-emitted as JSON, while every other result is passed to
`NextResponse.json(result)`, which serialises the `Response` object itself —
an object with no enumerable properties, i.e. `\x7b\x7d`. -/
def POST (e : Env) (req : Request) : Resp :=
  let result := (handleEditorNew e req).1
  if getParam req "type" = some "theme" then
    match result.bodyJson with
    | Except.ok j => Resp.json200 j
    | Except.error _ =>
      { status := 500, contentType := some "application/json", contentLength := none,
        body := Body.json internalErrorJson }
  else
    Resp.json200 (Json.obj [])

/-- A concrete environment for evaluating the handlers: package root `/pkg`,
a file outside the root at `/secret.png`, a file under the root at
`/pkg/img.png`, a failing `loadData`, and no theme directories. -/
def envA : Env :=
  { pkgPath := "/pkg"
    loadData := fun _ _ => Except.error ()
    updateData := fun _ _ _ => Except.ok ()
    uploadFiles := fun _ => Except.ok ["https://x/u1.png"]
    files := [("/secret.png", [1, 2, 3]), ("/pkg/img.png", [9, 8])]
    dirs := [] }

/-- A concrete environment whose `default` theme directory holds the entries
`banner1`, `footer1`, `index.ts` and `.hidden`, with an `index.html` source
in each of the two component folders. -/
def envTheme : Env :=
  { pkgPath := "/pkg"
    loadData := fun _ _ => Except.error ()
    updateData := fun _ _ _ => Except.ok ()
    uploadFiles := fun _ => Except.ok []
    files := [("/pkg/themes/default/banner1/index.html", strBytes "<h1>b</h1>"),
              ("/pkg/themes/default/footer1/index.html", strBytes "<f>")]
    dirs := [("/pkg/themes/default", ["banner1", "footer1", "index.ts", ".hidden"])] }

/-- Helper for C10: within `handleAssetNew` the only status-500 response is
the generic catch-block response, so its body is the generic error object. -/
theorem handleAssetNew_500_body (e : Env) (req : Request)
    (h : (handleAssetNew e req).status = 500) :
    (handleAssetNew e req).body = Body.json internalErrorJson := by
  unfold handleAssetNew at h ⊢
  by_cases hg : req.method = "GET"
  · simp only [hg, if_true] at h ⊢
    cases hp : getParam req "path" with
    | none => simp [hp, internalError500, Resp.jsonWith]
    | some p =>
      simp only [hp] at h ⊢
      cases hf : List.lookup (joinPath e.pkgPath p) e.files with
      | none => simp [hf, internalError500, Resp.jsonWith]
      | some d => simp [hf] at h
  · simp only [hg, if_false] at h
    simp [Resp.jsonWith] at h

/-- C1 counterexample: with package root `/pkg` and a file at `/secret.png`
(outside the root), the asset request `resolveAsset("../secret.png")` does
not fail at all — `handleAssetNew` joins the path (resolving `..` out of the
root) and streams the resolved file's bytes with status 200.  No
`PathTraversalRejected` failure exists in the code. -/
theorem asset_traversal_streams_bytes :
    handleAssetNew envA
      { method := "GET", query := [("type", "asset"), ("path", "../secret.png")],
        contentType := none, body := none } =
    { status := 200, contentType := some "image/png", contentLength := some "3",
      body := Body.bytes [1, 2, 3] } := by
  rfl

/-- C1 amended: for an asset GET whose `path` parameter resolves, under
Node's `path.join` normalisation, to a file that exists — even one lying
outside the fixed package root — `handleAssetNew` performs no traversal
check and streams that file's bytes with status 200; there is no
`PathTraversalRejected` outcome. -/
theorem asset_join_reads_resolved_file (e : Env) (req : Request) (p : String)
    (data : List Nat)
    (hm : req.method = "GET")
    (hp : getParam req "path" = some p)
    (hf : e.files.lookup (joinPath e.pkgPath p) = some data)
    (_hout : outsideRoot e.pkgPath (joinPath e.pkgPath p) = true) :
    handleAssetNew e req =
      { status := 200, contentType := some "image/png",
        contentLength := some (toString data.length), body := Body.bytes data } := by
  simp [handleAssetNew, hm, hp, hf]

/-- C1 amended, witness: the traversal path `../secret.png` resolves to
`/secret.png`, outside `/pkg`, and its bytes are streamed. -/
theorem asset_join_reads_resolved_file_witness :
    handleAssetNew envA
      { method := "GET", query := [("path", "../secret.png")],
        contentType := none, body := none } =
    { status := 200, contentType := some "image/png", contentLength := some "3",
      body := Body.bytes [1, 2, 3] } :=
  asset_join_reads_resolved_file envA
    { method := "GET", query := [("path", "../secret.png")],
      contentType := none, body := none }
    "../secret.png" [1, 2, 3] rfl rfl rfl rfl

/-- C2: for a theme whose directory lists exactly `banner1`, `footer1`,
`index.ts`, `.hidden`, the theme handler returns exactly two entries — the
`index.ts` descriptor and the hidden entry are filtered out — and each entry
pairs the folder name with the source read from that folder's
`index.html`. -/
theorem theme_listing_filters_and_pairs (e : Env) (req : Request)
    (name : String) (s1 s2 : List Nat)
    (hm : req.method = "GET")
    (hn : getParam req "name" = some name)
    (hdir : e.dirs.lookup (joinPath (joinPath e.pkgPath "themes") name) =
      some ["banner1", "footer1", "index.ts", ".hidden"])
    (h1 : e.files.lookup
      (joinPath (joinPath (joinPath (joinPath e.pkgPath "themes") name) "banner1")
        "index.html") = some s1)
    (h2 : e.files.lookup
      (joinPath (joinPath (joinPath (joinPath e.pkgPath "themes") name) "footer1")
        "index.html") = some s2) :
    handleThemeNew e req =
      Resp.json200 (Json.arr
        [Json.obj [("source", Json.str (bytesToStr s1)), ("folder", Json.str "banner1")],
         Json.obj [("source", Json.str (bytesToStr s2)), ("folder", Json.str "footer1")]]) := by
  have hfil : List.filter (fun c => (c != "index.ts") && !(strStartsWith c "."))
      ["banner1", "footer1", "index.ts", ".hidden"] = ["banner1", "footer1"] := rfl
  simp [handleThemeNew, hm, hn, hdir, hfil, readComponents, h1, h2]

/-- C2 witness: the concrete `default` theme of `envTheme`. -/
theorem theme_listing_filters_and_pairs_witness :
    handleThemeNew envTheme
      { method := "GET", query := [("type", "theme"), ("name", "default")],
        contentType := none, body := none } =
    Resp.json200 (Json.arr
      [Json.obj [("source", Json.str (bytesToStr (strBytes "<h1>b</h1>"))),
                 ("folder", Json.str "banner1")],
       Json.obj [("source", Json.str (bytesToStr (strBytes "<f>"))),
                 ("folder", Json.str "footer1")]]) :=
  theme_listing_filters_and_pairs envTheme
    { method := "GET", query := [("type", "theme"), ("name", "default")],
      contentType := none, body := none }
    "default" (strBytes "<h1>b</h1>") (strBytes "<f>") rfl rfl rfl rfl rfl

/-- C3 counterexample: loading the theme `default` when no theme directory
exists produces the generic 500 `Internal Server Error` response — the very
same response as a completely unrelated failure (a missing asset file) — so
no distinguished `ThemeNotFound` failure is produced. -/
theorem theme_missing_dir_generic_500 :
    handleThemeNew envA
      { method := "GET", query := [("type", "theme"), ("name", "default")],
        contentType := none, body := none } = internalError500
    ∧ handleAssetNew envA
      { method := "GET", query := [("type", "asset"), ("path", "missing.png")],
        contentType := none, body := none } = internalError500
    ∧ internalError500.status = 500 :=
  ⟨rfl, rfl, rfl⟩

/-- C3 amended: loading a theme whose directory does not exist fails, but
with the generic 500 `Internal Server Error` catch-block response instead of
a distinguished `ThemeNotFound` error: `readdir` rejects and the rejection is
swallowed by the handler's catch. -/
theorem theme_missing_dir_internal_error (e : Env) (req : Request) (name : String)
    (hm : req.method = "GET")
    (hn : getParam req "name" = some name)
    (hd : e.dirs.lookup (joinPath (joinPath e.pkgPath "themes") name) = none) :
    handleThemeNew e req = internalError500 := by
  simp [handleThemeNew, hm, hn, hd]

/-- C3 amended, witness: the `default` theme against the empty directory
tree of `envA`. -/
theorem theme_missing_dir_internal_error_witness :
    handleThemeNew envA
      { method := "GET", query := [("name", "default")],
        contentType := none, body := none } = internalError500 :=
  theme_missing_dir_internal_error envA
    { method := "GET", query := [("name", "default")],
      contentType := none, body := none }
    "default" rfl rfl rfl

/-- C4 counterexample: a GET request of type `asset` whose file read fails
reaches the client with status 200 (carrying the serialised generic error
object as its binary body), not with status 500 — the outer `GET` wrapper
re-emits every asset response at status 200. -/
theorem asset_failure_surfaces_as_200 :
    GET envA
      { method := "GET", query := [("type", "asset"), ("path", "missing.png")],
        contentType := none, body := none } =
    { status := 200, contentType := some "image/png", contentLength := none,
      body := Body.bytes (strBytes (Json.serialize internalErrorJson)) } := by
  rfl

/-- C4 amended: at the level of the inner dispatcher `handleEditorNew`,
every request gets a response (no exception escapes), the status is one of
200, 400, 405, 500; every 500 carries the generic `Internal Server Error`
object; and 400 arises only when the `type` parameter is none of `data`,
`asset`, `theme`.  The outer `GET` wrapper, however, re-wraps responses, so
internal failures can reach the client with status 200 (see the
counterexample). -/
theorem inner_handlers_status_discipline (e : Env) (req : Request) :
    ((handleEditorNew e req).1.status = 200 ∨ (handleEditorNew e req).1.status = 400 ∨
     (handleEditorNew e req).1.status = 405 ∨ (handleEditorNew e req).1.status = 500)
    ∧ ((handleEditorNew e req).1.status = 500 →
        (handleEditorNew e req).1.body = Body.json internalErrorJson)
    ∧ ((handleEditorNew e req).1.status = 400 →
        getParam req "type" ≠ some "data" ∧ getParam req "type" ≠ some "asset" ∧
        getParam req "type" ≠ some "theme") := by
  unfold handleEditorNew handleDataNew handleAssetNew handleThemeNew
  repeat' split
  all_goals simp_all [internalError500, Resp.jsonWith, Resp.json200]
  all_goals (repeat' split)
  all_goals simp_all

/-- C4 amended, witness: a failing data load is collapsed to the generic
error object by the inner dispatcher. -/
theorem inner_handlers_status_discipline_witness :
    (handleEditorNew envA
      { method := "GET", query := [("type", "data"), ("path", "home")],
        contentType := none, body := none }).1.body = Body.json internalErrorJson :=
  (inner_handlers_status_discipline envA
    { method := "GET", query := [("type", "data"), ("path", "home")],
      contentType := none, body := none }).2.1 rfl

/-- C5: whenever the `type` query parameter is none of `data`, `asset`,
`theme` (including when it is absent), `handleEditorNew` responds with
status 400 and the JSON object whose `error` field is `Invalid Type`. -/
theorem invalid_type_yields_400 (e : Env) (req : Request)
    (h1 : getParam req "type" ≠ some "data")
    (h2 : getParam req "type" ≠ some "asset")
    (h3 : getParam req "type" ≠ some "theme") :
    (handleEditorNew e req).1 =
      Resp.jsonWith 400 (Json.obj [("error", Json.str "Invalid Type")]) := by
  simp [handleEditorNew, h1, h2, h3]

/-- C5 witness: a request with no `type` parameter at all. -/
theorem invalid_type_yields_400_witness :
    (handleEditorNew envA
      { method := "GET", query := [], contentType := none, body := none }).1 =
    Resp.jsonWith 400 (Json.obj [("error", Json.str "Invalid Type")]) :=
  invalid_type_yields_400 envA
    { method := "GET", query := [], contentType := none, body := none }
    (by decide) (by decide) (by decide)

/-- C6: a request reaching the data handler with a method other than GET or
POST gets status 405, and one reaching the asset or theme handler with a
method other than GET gets status 405. -/
theorem unsupported_method_yields_405 (e : Env) (req : Request) :
    (req.method ≠ "GET" → req.method ≠ "POST" →
      ((handleDataNew e req).1).status = 405)
    ∧ (req.method ≠ "GET" → (handleAssetNew e req).status = 405)
    ∧ (req.method ≠ "GET" → (handleThemeNew e req).status = 405) := by
  refine ⟨fun h1 h2 => ?_, fun h => ?_, fun h => ?_⟩
  · simp [handleDataNew, h1, h2, Resp.jsonWith]
  · simp [handleAssetNew, h, Resp.jsonWith]
  · simp [handleThemeNew, h, Resp.jsonWith]

/-- C6 witness: a DELETE request is rejected with 405 by all three
handlers. -/
theorem unsupported_method_yields_405_witness :
    ((handleDataNew envA
      { method := "DELETE", query := [], contentType := none, body := none }).1).status = 405
    ∧ (handleAssetNew envA
      { method := "DELETE", query := [], contentType := none, body := none }).status = 405
    ∧ (handleThemeNew envA
      { method := "DELETE", query := [], contentType := none, body := none }).status = 405 :=
  ⟨(unsupported_method_yields_405 envA
      { method := "DELETE", query := [], contentType := none, body := none }).1
      (by decide) (by decide),
   (unsupported_method_yields_405 envA
      { method := "DELETE", query := [], contentType := none, body := none }).2.1
      (by decide),
   (unsupported_method_yields_405 envA
      { method := "DELETE", query := [], contentType := none, body := none }).2.2
      (by decide)⟩

/-- C7: a POST data request is treated as an upload exactly when the
`content-type` header starts with `multipart/form-data` — then the response
is the JSON array of URLs from `uploadFiles` — and otherwise (including an
absent header) the body is persisted via `updateData` at `(path, ext)` and
the response is the empty JSON object. -/
theorem post_data_multipart_dispatch (e : Env) (req : Request)
    (hm : req.method = "POST") :
    (isMultipartReq req = true →
      handleDataNew e req =
        match e.uploadFiles req with
        | Except.ok urls => (Resp.json200 (Json.arr (urls.map Json.str)), [Call.uploadFiles])
        | Except.error _ => (internalError500, [Call.uploadFiles]))
    ∧ (isMultipartReq req = false →
      handleDataNew e req =
        match e.updateData (getParam req "path") (orDefault (getParam req "ext") "html")
            req.body with
        | Except.ok _ => (Resp.json200 (Json.obj []),
            [Call.updateData (getParam req "path")
              (orDefault (getParam req "ext") "html") req.body])
        | Except.error _ => (internalError500,
            [Call.updateData (getParam req "path")
              (orDefault (getParam req "ext") "html") req.body])) := by
  constructor <;> intro h <;> simp [handleDataNew, hm, h]

/-- C7 witness: a multipart POST is dispatched to `uploadFiles` and answers
with the URL list. -/
theorem post_data_multipart_dispatch_witness :
    handleDataNew envA
      { method := "POST", query := [("type", "data")],
        contentType := some "multipart/form-data; boundary=b", body := none } =
    (Resp.json200 (Json.arr [Json.str "https://x/u1.png"]), [Call.uploadFiles]) :=
  (post_data_multipart_dispatch envA
    { method := "POST", query := [("type", "data")],
      contentType := some "multipart/form-data; boundary=b", body := none }
    rfl).1 rfl

/-- C8: a successful asset fetch answers with the raw bytes of the resolved
file, `Content-Type: image/png`, and `Content-Length` equal to the byte
length of the returned data. -/
theorem asset_fetch_success_headers (e : Env) (req : Request) (p : String)
    (data : List Nat)
    (hm : req.method = "GET")
    (hp : getParam req "path" = some p)
    (hf : e.files.lookup (joinPath e.pkgPath p) = some data) :
    handleAssetNew e req =
      { status := 200, contentType := some "image/png",
        contentLength := some (toString data.length), body := Body.bytes data } := by
  simp [handleAssetNew, hm, hp, hf]

/-- C8 witness: fetching `img.png` (resolved to `/pkg/img.png`, two bytes)
streams `[9, 8]` with `Content-Length: 2`. -/
theorem asset_fetch_success_headers_witness :
    handleAssetNew envA
      { method := "GET", query := [("type", "asset"), ("path", "img.png")],
        contentType := none, body := none } =
    { status := 200, contentType := some "image/png", contentLength := some "2",
      body := Body.bytes [9, 8] } :=
  asset_fetch_success_headers envA
    { method := "GET", query := [("type", "asset"), ("path", "img.png")],
      contentType := none, body := none }
    "img.png" [9, 8] rfl rfl rfl

/-- C9: when the `ext` query parameter is absent or empty, the data handler
proceeds with format `html`: a GET invokes `loadData(path, 'html')` and a
non-multipart POST invokes `updateData(path, 'html', body)`. -/
theorem ext_defaults_to_html (e : Env) (req : Request)
    (he : getParam req "ext" = none ∨ getParam req "ext" = some "") :
    (req.method = "GET" →
      (handleDataNew e req).2 = [Call.loadData (getParam req "path") "html"])
    ∧ (req.method = "POST" → isMultipartReq req = false →
      (handleDataNew e req).2 =
        [Call.updateData (getParam req "path") "html" req.body]) := by
  have hd : orDefault (getParam req "ext") "html" = "html" := by
    rcases he with h | h <;> simp [orDefault, h]
  constructor
  · intro hg
    cases hL : e.loadData (getParam req "path") "html" <;>
      simp [handleDataNew, hg, hd, hL]
  · intro hp hmp
    cases hU : e.updateData (getParam req "path") "html" req.body <;>
      simp [handleDataNew, hp, hmp, hd, hU]

/-- C9 witness: a GET for path `home` with no `ext` parameter calls
`loadData` with format `html`. -/
theorem ext_defaults_to_html_witness :
    (handleDataNew envA
      { method := "GET", query := [("type", "data"), ("path", "home")],
        contentType := none, body := none }).2 =
    [Call.loadData (some "home") "html"] :=
  (ext_defaults_to_html envA
    { method := "GET", query := [("type", "data"), ("path", "home")],
      contentType := none, body := none }
    (Or.inl rfl)).1 rfl

/-- C10: every GET with query type `asset` answers the client with status
200 and `Content-Type: image/png`, the body being the bytes of whatever the
inner asset handler produced; in particular when the file read failed (inner
status 500), the body is the byte serialisation of the generic JSON error
object. -/
theorem asset_route_get_always_200 (e : Env) (req : Request)
    (_hm : req.method = "GET")
    (ht : getParam req "type" = some "asset") :
    GET e req =
      { status := 200, contentType := some "image/png", contentLength := none,
        body := Body.bytes ((handleAssetNew e req).arrayBuffer) }
    ∧ ((handleAssetNew e req).status = 500 →
        (GET e req).body = Body.bytes (strBytes (Json.serialize internalErrorJson))) := by
  have h1 : GET e req =
      { status := 200, contentType := some "image/png", contentLength := none,
        body := Body.bytes ((handleAssetNew e req).arrayBuffer) } := by
    simp [GET, handleEditorNew, ht]
  refine ⟨h1, fun h5 => ?_⟩
  rw [h1]
  simp [Resp.arrayBuffer, handleAssetNew_500_body e req h5]

/-- C10 witness: a missing asset file still reaches the client as a 200
image/png response whose body is the serialised generic error object. -/
theorem asset_route_get_always_200_witness :
    (GET envA
      { method := "GET", query := [("type", "asset"), ("path", "nothere.png")],
        contentType := none, body := none }).body =
    Body.bytes (strBytes (Json.serialize internalErrorJson)) :=
  (asset_route_get_always_200 envA
    { method := "GET", query := [("type", "asset"), ("path", "nothere.png")],
      contentType := none, body := none }
    rfl rfl).2 rfl

end Destack
